import Mathlib

/-!
Verification development for a serverless CRUD handler over a single
`quotes` table (source: netlify/functions/quotes/src/main.rs).

The Rust program is shallowly embedded below:
  * `Quote` mirrors the serde struct (all fields optional; `rowid`
    serialized via DisplayFromStr, i.e. as a decimal string).
  * `Row`/`DB` model the storage table as a list of rows.
  * `getQuotes`, `getQuote`, `insertQuote`, `updateQuote`, `deleteQuote`
    model the SQL statements the program issues.  SQL execution is the
    work of the external database; its semantics for the statements used
    here (ORDER BY episode ASC LIMIT 20, WHERE rowid=$1, INSERT
    RETURNING, sparse UPDATE, DELETE) is modelled explicitly.
  * `updateColStrings`/`updateSql` mirror byte for byte the string
    concatenation by which update_quote builds its UPDATE statement.
  * `handler` mirrors the method dispatch of the Rust handler, including
    the panic on `body.unwrap()` and the `?`-propagated fatal errors.
JSON decoding of request bodies is delegated to serde in the source and
is kept abstract here (the `parseQ` argument of `handler`).
-/

/-- Models rust_decimal Decimal: an integer mantissa with a decimal
scale.  Display keeps the full scale, as rust_decimal does. -/
structure Decimal where
  mantissa : Int
  scale : Nat
deriving DecidableEq, Repr

/-- Display of a Decimal value, mirroring rust_decimal Display: the
absolute mantissa padded to scale+1 digits with the point inserted, and
a leading minus sign for negative values. -/
def Decimal.toString (d : Decimal) : String :=
  let digits := ToString.toString d.mantissa.natAbs
  let digits :=
    if digits.length ≤ d.scale then
      String.mk (List.replicate (d.scale + 1 - digits.length) '0') ++ digits
    else digits
  let sign := if d.mantissa < 0 then "-" else ""
  if d.scale = 0 then sign ++ digits
  else sign ++ digits.dropRight d.scale ++ "." ++ digits.takeRight d.scale

/-- The serde struct of main.rs: every field is an Option, `rowid` is
(de)serialized through DisplayFromStr. -/
structure Quote where
  rowid : Option Int
  quote : Option String
  characters : Option String
  stardate : Option Decimal
  episode : Option Int
deriving DecidableEq, Repr

/-- A stored row of the quotes table: rowid is the storage-assigned
primary key, the other columns are nullable. -/
structure Row where
  rowid : Int
  quote : Option String
  characters : Option String
  stardate : Option Decimal
  episode : Option Int
deriving DecidableEq, Repr

/-- The quotes table. -/
abbrev DB := List Row

/-- Reading a row back into the serde struct, as the row.get calls of
main.rs do after each SELECT / RETURNING. -/
def rowToQuote (r : Row) : Quote :=
  ⟨some r.rowid, r.quote, r.characters, r.stardate, r.episode⟩

/-- JSON values, for the wire shape produced by serde_json. -/
inductive Json
  | null
  | str (s : String)
  | int (n : Int)
  | arr (xs : List Json)
  | obj (fields : List (String × Json))

/-- Hex digit for JSON control-character escapes. -/
def hexDigit (n : Nat) : Char :=
  if n < 10 then Char.ofNat (48 + n) else Char.ofNat (87 + n)

/-- serde_json escaping of a single character inside a JSON string. -/
def escapeChar (c : Char) : String :=
  if c = '\"' then "\\\""
  else if c = '\\' then "\\\\"
  else if c = Char.ofNat 8 then "\\b"
  else if c = Char.ofNat 9 then "\\t"
  else if c = Char.ofNat 10 then "\\n"
  else if c = Char.ofNat 12 then "\\f"
  else if c = Char.ofNat 13 then "\\r"
  else if c.toNat < 32 then
    "\\u00" ++ String.singleton (hexDigit (c.toNat / 16)) ++
      String.singleton (hexDigit (c.toNat % 16))
  else String.singleton c

/-- serde_json escaping of a whole string body. -/
def jsonEscape (s : String) : String :=
  String.join (s.toList.map escapeChar)

mutual

/-- Compact rendering of a JSON value, as serde_json to_string does. -/
def Json.render : Json → String
  | .null => "null"
  | .str s => "\"" ++ jsonEscape s ++ "\""
  | .int n => ToString.toString n
  | .arr xs => "[" ++ Json.renderArr xs ++ "]"
  | .obj fs => "\x7b" ++ Json.renderObj fs ++ "\x7d"

/-- Comma-separated rendering of array elements. -/
def Json.renderArr : List Json → String
  | [] => ""
  | [x] => Json.render x
  | x :: y :: xs => Json.render x ++ "," ++ Json.renderArr (y :: xs)

/-- Comma-separated rendering of object members. -/
def Json.renderObj : List (String × Json) → String
  | [] => ""
  | [(k, v)] => "\"" ++ jsonEscape k ++ "\":" ++ Json.render v
  | (k, v) :: f :: fs =>
      "\"" ++ jsonEscape k ++ "\":" ++ Json.render v ++ "," ++ Json.renderObj (f :: fs)

end

/-- serde encoding of `Option<DisplayFromStr i64>`: the integer printed
into a JSON string, or null. -/
def encOptIntStr : Option Int → Json
  | some n => Json.str (ToString.toString n)
  | none => Json.null

/-- serde encoding of `Option<String>`. -/
def encOptStr : Option String → Json
  | some s => Json.str s
  | none => Json.null

/-- serde encoding of `Option<Decimal>`: rust_decimal serializes through
Display, so the value lands in a JSON string. -/
def encOptDec : Option Decimal → Json
  | some d => Json.str d.toString
  | none => Json.null

/-- serde encoding of `Option<i64>` without DisplayFromStr: a JSON
number or null. -/
def encOptInt : Option Int → Json
  | some n => Json.int n
  | none => Json.null

/-- The derived Serialize for Quote: one member per struct field, in
declaration order, under the field names of the Rust struct. -/
def Quote.toJson (q : Quote) : Json :=
  Json.obj
    [("rowid", encOptIntStr q.rowid),
     ("quote", encOptStr q.quote),
     ("characters", encOptStr q.characters),
     ("stardate", encOptDec q.stardate),
     ("episode", encOptInt q.episode)]

/-- serde_json serialization of `Option<Quote>`: None becomes null. -/
def optQuoteJson : Option Quote → Json
  | some q => Quote.toJson q
  | none => Json.null

/-- Keys of a JSON object, in member order. -/
def jsonObjKeys : Json → List String
  | .obj fs => fs.map Prod.fst
  | _ => []

/-- Member of a JSON object by key. -/
def objLookup : Json → String → Option Json
  | .obj fs, k => fs.lookup k
  | _, _ => none

/-- Ordering used by `ORDER BY episode asc`: NULL episodes sort last,
the PostgreSQL default for ascending order. -/
def episodeLE (a b : Row) : Bool :=
  match a.episode, b.episode with
  | none, none => true
  | none, some _ => false
  | some _, none => true
  | some x, some y => decide (x ≤ y)

/-- get_quotes: SELECT ... ORDER BY episode asc LIMIT 20, each row read
back into a Quote. -/
def getQuotes (db : DB) : List Quote :=
  ((db.mergeSort episodeLE).take 20).map rowToQuote

/-- The same NULLS LAST episode ordering, read off returned Quotes. -/
def quoteEpisodeLE (a b : Quote) : Bool :=
  match a.episode, b.episode with
  | none, none => true
  | none, some _ => false
  | some _, none => true
  | some x, some y => decide (x ≤ y)

/-- get_quote: SELECT ... WHERE rowid=$1 via query_opt, at most one row. -/
def getQuote (db : DB) (rid : Int) : Option Quote :=
  (db.find? (fun r => r.rowid == rid)).map rowToQuote

/-- insert_quote: INSERT (quote, characters, stardate, episode) VALUES
($1,$2,$3,$4) RETURNING all columns.  The primary key `gen` is assigned
by the storage engine; freshness is a storage guarantee and appears as a
hypothesis in the theorems. -/
def insertQuote (db : DB) (gen : Int) (nq : Quote) : DB × Quote :=
  let row : Row := ⟨gen, nq.quote, nq.characters, nq.stardate, nq.episode⟩
  (db ++ [row], rowToQuote row)

/-- The cols vector of update_quote: one formatted assignment string
pushed per present field, in source order (quote, characters, episode,
stardate), with the value interpolated textually into the SQL. -/
def updateColStrings (q : Quote) : List String :=
  (match q.quote with
   | some v => ["quote=\x27" ++ v ++ "\x27"]
   | none => [])
  ++ (match q.characters with
   | some v => ["characters=\x27" ++ v ++ "\x27"]
   | none => [])
  ++ (match q.episode with
   | some v => ["episode=" ++ ToString.toString v]
   | none => [])
  ++ (match q.stardate with
   | some v => ["stardate=" ++ v.toString]
   | none => [])

/-- The full statement text built by update_quote via string_builder:
prefix, the joined cols vector, the WHERE keyed on rowid, and the
RETURNING tail. -/
def updateSql (rid : Int) (q : Quote) : String :=
  "UPDATE quotes SET " ++ String.intercalate ", " (updateColStrings q) ++
    " WHERE rowid=" ++ ToString.toString rid ++
    " RETURNING rowid, quote, characters, stardate, episode;"

/-- Structured view of one assignment of the SET clause. -/
inductive SetCol
  | quoteCol (v : String)
  | charactersCol (v : String)
  | episodeCol (v : Int)
  | stardateCol (v : Decimal)
deriving DecidableEq, Repr

/-- The assignment string for one structured SET column, exactly the
format! calls of update_quote. -/
def SetCol.render : SetCol → String
  | .quoteCol v => "quote=\x27" ++ v ++ "\x27"
  | .charactersCol v => "characters=\x27" ++ v ++ "\x27"
  | .episodeCol v => "episode=" ++ ToString.toString v
  | .stardateCol v => "stardate=" ++ v.toString

/-- Structured contents of the cols vector, in the same source order. -/
def colsOf (q : Quote) : List SetCol :=
  (match q.quote with
   | some v => [SetCol.quoteCol v]
   | none => [])
  ++ (match q.characters with
   | some v => [SetCol.charactersCol v]
   | none => [])
  ++ (match q.episode with
   | some v => [SetCol.episodeCol v]
   | none => [])
  ++ (match q.stardate with
   | some v => [SetCol.stardateCol v]
   | none => [])

/-- Effect of the intended (injection-free) reading of the generated
UPDATE on one row: each column named in the SET clause is overwritten,
every other column keeps its stored value.  This models the external
database executing the statement update_quote builds. -/
def applySparse (q : Quote) (r : Row) : Row :=
  { r with
    quote := match q.quote with | some v => some v | none => r.quote
    characters := match q.characters with | some v => some v | none => r.characters
    stardate := match q.stardate with | some v => some v | none => r.stardate
    episode := match q.episode with | some v => some v | none => r.episode }

/-- update_quote: the UPDATE touches the rows whose rowid matches, and
RETURNING hands back the updated row (query_opt keeps at most one). -/
def updateQuote (db : DB) (rid : Int) (q : Quote) : DB × Option Quote :=
  let db2 := db.map (fun r => if r.rowid == rid then applySparse q r else r)
  (db2, (db2.find? (fun r => r.rowid == rid)).map rowToQuote)

/-- delete_quote: DELETE WHERE rowid = $1, returning the number of rows
removed, as client.execute does. -/
def deleteQuote (db : DB) (rid : Int) : DB × Nat :=
  (db.filter (fun r => r.rowid != rid),
   (db.filter (fun r => r.rowid == rid)).length)

/-- HTTP methods of the http crate that can reach the match in the
handler; the first four have dedicated arms, the rest hit the wildcard. -/
inductive Method
  | GET | POST | PUT | DELETE | PATCH | HEAD | OPTIONS | TRACE | CONNECT
deriving DecidableEq, Repr

/-- Body of an ApiGatewayProxyResponse as the handler builds it:
Body::Text or Body::Empty. -/
inductive RespBody
  | text (s : String)
  | empty
deriving DecidableEq, Repr

/-- The response fields the handler varies (headers are always empty
and is_base64_encoded always false in the source). -/
structure Response where
  statusCode : Nat
  body : RespBody
deriving DecidableEq, Repr

/-- One SQL statement issued against storage, for tracking which
requests touch the table. -/
inductive StorageOp
  | selectMany
  | selectOne (rid : Int)
  | insertRow (q : Quote)
  | updateRow (rid : Int) (q : Quote)
  | deleteRow (rid : Int)
deriving DecidableEq, Repr

/-- How one invocation ends: a built response, an Err propagated by `?`
(fatal for the invocation, no structured response), or a panic from
unwrap on a missing body.  Each carries the table state afterwards and
the storage statements issued. -/
inductive Outcome
  | ok (resp : Response) (db : DB) (ops : List StorageOp)
  | fatal (db : DB) (ops : List StorageOp)
  | panic (db : DB) (ops : List StorageOp)
deriving DecidableEq, Repr

/-- Whether an invocation produced a structured response at all: true
exactly for a built ApiGatewayProxyResponse, false for a propagated Err
or a panic. -/
def isResponse : Outcome → Bool
  | .ok _ _ _ => true
  | .fatal _ _ => false
  | .panic _ _ => false

/-- The parts of the ApiGatewayProxyRequest the handler reads: the
method, the first `rowid` query parameter, and the optional body. -/
structure Request where
  httpMethod : Method
  rowidParam : Option String
  body : Option String

/-- Digit run to a number: all characters must be ASCII digits and at
least one must be present, as in i64 from_str. -/
def digitsToNat (cs : List Char) : Option Nat :=
  if cs ≠ [] ∧ cs.all Char.isDigit then
    some (cs.foldl (fun a c => a * 10 + (c.toNat - 48)) 0)
  else none

/-- Smallest i64. -/
def i64Min : Int := -(2 ^ 63)

/-- Largest i64. -/
def i64Max : Int := 2 ^ 63 - 1

/-- Rust str::parse::<i64>: an optional sign, then only digits, rejected
on overflow. -/
def parseI64 (s : String) : Option Int :=
  let split :=
    match s.toList with
    | '-' :: rest => (true, rest)
    | '+' :: rest => (false, rest)
    | rest => (false, rest)
  match digitsToNat split.2 with
  | none => none
  | some n =>
    let v : Int := if split.1 then -(n : Int) else (n : Int)
    if i64Min ≤ v ∧ v ≤ i64Max then some v else none

/-- The method dispatch of the Rust handler.  `parseQ` stands for
serde_json::from_str::<Quote> (JSON decoding is an external
collaborator); `gen` is the primary key storage would assign to an
inserted row.  Fallible steps map `?` to Outcome.fatal and the two
body.unwrap() calls to Outcome.panic, in source order. -/
def handler (parseQ : String → Option Quote) (req : Request) (db : DB)
    (gen : Int) : Outcome :=
  match req.httpMethod with
  | .GET =>
    match req.rowidParam with
    | some s =>
      match parseI64 s with
      | none => .fatal db []
      | some rid =>
          .ok ⟨200, .text (Json.render (optQuoteJson (getQuote db rid)))⟩ db
            [.selectOne rid]
    | none =>
        .ok ⟨200, .text (Json.render (Json.arr ((getQuotes db).map Quote.toJson)))⟩
          db [.selectMany]
  | .POST =>
    match req.body with
    | none => .panic db []
    | some b =>
      match parseQ b with
      | none => .fatal db []
      | some nq =>
        let res := insertQuote db gen nq
        .ok ⟨201, .text (Json.render (Quote.toJson res.2))⟩ res.1 [.insertRow nq]
  | .PUT =>
    match req.rowidParam with
    | some s =>
      match parseI64 s with
      | none => .fatal db []
      | some rid =>
        match req.body with
        | none => .panic db []
        | some b =>
          match parseQ b with
          | none => .fatal db []
          | some uq =>
            let res := updateQuote db rid uq
            .ok ⟨200, .text (Json.render (optQuoteJson res.2))⟩ res.1
              [.updateRow rid uq]
    | none => .ok ⟨400, .text "rowid is required"⟩ db []
  | .DELETE =>
    match req.rowidParam with
    | some s =>
      match parseI64 s with
      | none => .fatal db []
      | some rid =>
          .ok ⟨204, RespBody.empty⟩ (deleteQuote db rid).1 [.deleteRow rid]
    | none => .ok ⟨400, .text "rowid is required"⟩ db []
  | _ => .ok ⟨405, .text "Method Not Allowed"⟩ db []

/-! ## Helper lemmas -/

theorem episodeLE_trans (a b c : Row) (h1 : episodeLE a b = true)
    (h2 : episodeLE b c = true) : episodeLE a c = true := by
  unfold episodeLE at *
  rcases ha : a.episode with _ | x <;> rcases hb : b.episode with _ | y <;>
    rcases hc : c.episode with _ | z <;> simp_all <;> omega

theorem episodeLE_total (a b : Row) : (episodeLE a b || episodeLE b a) = true := by
  unfold episodeLE
  rcases ha : a.episode with _ | x <;> rcases hb : b.episode with _ | y <;>
    simp_all <;> omega

theorem quoteEpisodeLE_row (a b : Row) :
    quoteEpisodeLE (rowToQuote a) (rowToQuote b) = episodeLE a b := rfl

/-! ## Claims -/

/-- C3: a GET request with no rowid query parameter yields status 200
with the JSON array of the fetched quotes; that list holds at most 20
records and is non-decreasing in episode (NULL episodes last, the
ascending-order placement the storage engine uses). -/
theorem get_quotes_limit20_sorted (parseQ : String → Option Quote) (db : DB)
    (gen : Int) (b : Option String) :
    handler parseQ ⟨Method.GET, none, b⟩ db gen =
      Outcome.ok
        ⟨200, RespBody.text (Json.render (Json.arr ((getQuotes db).map Quote.toJson)))⟩
        db [StorageOp.selectMany] ∧
    (getQuotes db).length ≤ 20 ∧
    List.Pairwise (fun a b : Quote => quoteEpisodeLE a b = true) (getQuotes db) := by
  refine ⟨rfl, ?_, ?_⟩
  · simp [getQuotes]
  · rw [getQuotes, List.pairwise_map]
    simp only [quoteEpisodeLE_row]
    exact List.Pairwise.sublist (List.take_sublist 20 _)
      (List.sorted_mergeSort episodeLE_trans episodeLE_total db)

/-- C6: a PUT or DELETE request with no rowid query parameter returns
status 400 with body "rowid is required", the table is unchanged and no
storage statement is issued. -/
theorem missing_rowid_400 (parseQ : String → Option Quote) (db : DB) (gen : Int)
    (m : Method) (b : Option String) (hm : m = Method.PUT ∨ m = Method.DELETE) :
    handler parseQ ⟨m, none, b⟩ db gen =
      Outcome.ok ⟨400, RespBody.text "rowid is required"⟩ db [] := by
  rcases hm with h | h <;> subst h <;> rfl

/-- C6 witness: a concrete DELETE with no rowid parameter. -/
theorem missing_rowid_400_witness :
    handler (fun _ => none) ⟨Method.DELETE, none, none⟩ [] 0 =
      Outcome.ok ⟨400, RespBody.text "rowid is required"⟩ [] [] :=
  missing_rowid_400 (fun _ => none) [] 0 Method.DELETE none (Or.inr rfl)

/-- C7: any request whose method is none of GET, POST, PUT, DELETE
returns status 405 with plain-text body "Method Not Allowed", the table
unchanged and no storage statement issued. -/
theorem unsupported_method_405 (parseQ : String → Option Quote) (db : DB)
    (gen : Int) (m : Method) (rp b : Option String)
    (hm : m ≠ Method.GET ∧ m ≠ Method.POST ∧ m ≠ Method.PUT ∧ m ≠ Method.DELETE) :
    handler parseQ ⟨m, rp, b⟩ db gen =
      Outcome.ok ⟨405, RespBody.text "Method Not Allowed"⟩ db [] := by
  cases m <;> first
    | (exact absurd rfl hm.1)
    | (exact absurd rfl hm.2.1)
    | (exact absurd rfl hm.2.2.1)
    | (exact absurd rfl hm.2.2.2)
    | rfl

/-- C1 counterexample: the claim fails at the SQL level because values
are interpolated textually.  A PUT body whose only present field is
`quote` (characters absent) with value `a\x27, characters=\x27b`
produces byte for byte the same UPDATE statement as a body that sets
quote to `a` and characters to `b`; the storage engine only sees that
statement, so the SET clause effectively contains a column absent from
the body, and the absent characters field of the target record does not
keep its stored value. -/
theorem updateSql_injection_cex :
    updateSql 5 ⟨none, some "a\x27, characters=\x27b", none, none, none⟩ =
      updateSql 5 ⟨none, some "a", some "b", none, none⟩ ∧
    (⟨none, some "a\x27, characters=\x27b", none, none, none⟩ : Quote).characters = none ∧
    (⟨none, some "a", some "b", none, none⟩ : Quote).characters = some "b" ∧
    (applySparse ⟨none, some "a", some "b", none, none⟩
        ⟨5, none, some "old", none, none⟩).characters = some "b" :=
  ⟨rfl, rfl, rfl, rfl⟩

/-- C1 (amended): the cols vector of update_quote holds exactly one
assignment per field present in the body, in source order; under the
intended (injection-free) reading of the generated statement, supplied
columns are overwritten, absent columns and the rowid keep their stored
values in the target record, and rows with a different rowid are
unchanged. -/
theorem update_sparse_columns (q : Quote) (r : Row) (db : DB) (rid : Int) :
    updateColStrings q = (colsOf q).map SetCol.render ∧
    (∀ v, SetCol.quoteCol v ∈ colsOf q ↔ q.quote = some v) ∧
    (∀ v, SetCol.charactersCol v ∈ colsOf q ↔ q.characters = some v) ∧
    (∀ v, SetCol.episodeCol v ∈ colsOf q ↔ q.episode = some v) ∧
    (∀ v, SetCol.stardateCol v ∈ colsOf q ↔ q.stardate = some v) ∧
    (applySparse q r).rowid = r.rowid ∧
    (q.quote = none → (applySparse q r).quote = r.quote) ∧
    (q.characters = none → (applySparse q r).characters = r.characters) ∧
    (q.stardate = none → (applySparse q r).stardate = r.stardate) ∧
    (q.episode = none → (applySparse q r).episode = r.episode) ∧
    (∀ v, q.quote = some v → (applySparse q r).quote = some v) ∧
    (∀ v, q.characters = some v → (applySparse q r).characters = some v) ∧
    (∀ v, q.stardate = some v → (applySparse q r).stardate = some v) ∧
    (∀ v, q.episode = some v → (applySparse q r).episode = some v) ∧
    (∀ x ∈ db, x.rowid ≠ rid → x ∈ (updateQuote db rid q).1) := by
  obtain ⟨ro, qq, ch, sd, ep⟩ := q
  refine ⟨?_, ?_, ?_, ?_, ?_, rfl, ?_, ?_, ?_, ?_, ?_, ?_, ?_, ?_, ?_⟩
  · cases qq <;> cases ch <;> cases sd <;> cases ep <;> rfl
  · intro v
    cases qq <;> cases ch <;> cases sd <;> cases ep <;> simp [colsOf, eq_comm]
  · intro v
    cases qq <;> cases ch <;> cases sd <;> cases ep <;> simp [colsOf, eq_comm]
  · intro v
    cases qq <;> cases ch <;> cases sd <;> cases ep <;> simp [colsOf, eq_comm]
  · intro v
    cases qq <;> cases ch <;> cases sd <;> cases ep <;> simp [colsOf, eq_comm]
  · intro h; subst h; rfl
  · intro h; subst h; rfl
  · intro h; subst h; rfl
  · intro h; subst h; rfl
  · intro v h; subst h; rfl
  · intro v h; subst h; rfl
  · intro v h; subst h; rfl
  · intro v h; subst h; rfl
  · intro x hx hne
    refine List.mem_map.2 ⟨x, hx, ?_⟩
    simp [beq_iff_eq, hne]

/-- C1 witness: at a concrete sparse body that only supplies `quote`,
the characters column is not in the cols vector and the characters
field of the target row keeps its stored value. -/
theorem update_sparse_columns_witness :
    (SetCol.charactersCol "c" ∈ colsOf ⟨none, some "a", none, none, none⟩ ↔
      (⟨none, some "a", none, none, none⟩ : Quote).characters = some "c") ∧
    (applySparse ⟨none, some "a", none, none, none⟩
        ⟨1, some "o", some "c", none, some 3⟩).characters = some "c" :=
  ⟨(update_sparse_columns ⟨none, some "a", none, none, none⟩
      ⟨1, some "o", some "c", none, some 3⟩ [] 0).2.2.1 "c",
   (update_sparse_columns ⟨none, some "a", none, none, none⟩
      ⟨1, some "o", some "c", none, some 3⟩ [] 0).2.2.2.2.2.2.2.1 rfl⟩

/-- C2: a POST whose body parses as P is answered with status 201 and
the JSON of the inserted Quote; the returned record carries the
storage-generated rowid and every field of P, and a GET by that rowid on
the resulting table state returns exactly that record.  Freshness of the
generated rowid is the storage guarantee on primary keys. -/
theorem post_insert_then_get_roundtrip (parseQ : String → Option Quote)
    (db : DB) (gen : Int) (b : String) (P : Quote) (rp : Option String)
    (hb : parseQ b = some P) (hfresh : ∀ r ∈ db, r.rowid ≠ gen) :
    ∃ db2 ret,
      handler parseQ ⟨Method.POST, rp, some b⟩ db gen =
        Outcome.ok ⟨201, RespBody.text (Json.render ret.toJson)⟩ db2
          [StorageOp.insertRow P] ∧
      ret.rowid = some gen ∧ ret.quote = P.quote ∧ ret.characters = P.characters ∧
      ret.stardate = P.stardate ∧ ret.episode = P.episode ∧
      getQuote db2 gen = some ret := by
  refine ⟨(insertQuote db gen P).1, (insertQuote db gen P).2,
    ?_, rfl, rfl, rfl, rfl, rfl, ?_⟩
  · simp [handler, hb]
  · have h1 : db.find? (fun r => r.rowid == gen) = none := by
      rw [List.find?_eq_none]
      intro x hx
      simpa using hfresh x hx
    simp [getQuote, insertQuote, List.find?_append, h1, List.find?]

/-- C2 witness: a concrete insert into the empty table and the read
back of the generated row. -/
theorem post_insert_then_get_roundtrip_witness :
    ∃ db2 ret,
      handler (fun _ => some ⟨none, some "q", none, none, some 1⟩)
          ⟨Method.POST, none, some "x"⟩ [] 7 =
        Outcome.ok ⟨201, RespBody.text (Json.render ret.toJson)⟩ db2
          [StorageOp.insertRow ⟨none, some "q", none, none, some 1⟩] ∧
      ret.rowid = some 7 ∧
      ret.quote = (⟨none, some "q", none, none, some 1⟩ : Quote).quote ∧
      ret.characters = (⟨none, some "q", none, none, some 1⟩ : Quote).characters ∧
      ret.stardate = (⟨none, some "q", none, none, some 1⟩ : Quote).stardate ∧
      ret.episode = (⟨none, some "q", none, none, some 1⟩ : Quote).episode ∧
      getQuote db2 7 = some ret :=
  post_insert_then_get_roundtrip (fun _ => some ⟨none, some "q", none, none, some 1⟩)
    [] 7 "x" ⟨none, some "q", none, none, some 1⟩ none rfl (by simp)

/-- C4: a GET whose rowid parameter parses as an integer returns status
200 with the JSON of the matching Quote when the table holds a row with
that rowid, and status 200 with the JSON text null when it does not;
existence of such a row is exactly what makes get_quote return a
record. -/
theorem get_by_rowid_200 (parseQ : String → Option Quote) (db : DB) (gen : Int)
    (s : String) (rid : Int) (b : Option String) (hs : parseI64 s = some rid) :
    (∀ q, getQuote db rid = some q →
        handler parseQ ⟨Method.GET, some s, b⟩ db gen =
          Outcome.ok ⟨200, RespBody.text (Json.render q.toJson)⟩ db
            [StorageOp.selectOne rid]) ∧
    (getQuote db rid = none →
        handler parseQ ⟨Method.GET, some s, b⟩ db gen =
          Outcome.ok ⟨200, RespBody.text "null"⟩ db [StorageOp.selectOne rid]) ∧
    ((getQuote db rid).isSome ↔ ∃ r ∈ db, r.rowid = rid) := by
  refine ⟨?_, ?_, ?_⟩
  · intro q hq
    simp [handler, hs, hq, optQuoteJson]
  · intro hq
    simp [handler, hs, hq, optQuoteJson, Json.render]
  · simp [getQuote, List.find?_isSome]

/-- C4 witness: a concrete table with one row, looked up by a parseable
rowid string. -/
theorem get_by_rowid_200_witness :
    handler (fun _ => none) ⟨Method.GET, some "1", none⟩
        [⟨1, some "q", none, none, none⟩] 0 =
      Outcome.ok
        ⟨200, RespBody.text (Json.render (rowToQuote ⟨1, some "q", none, none, none⟩).toJson)⟩
        [⟨1, some "q", none, none, none⟩] [StorageOp.selectOne 1] :=
  (get_by_rowid_200 (fun _ => none) [⟨1, some "q", none, none, none⟩] 0 "1" 1 none
      (by decide)).1
    (rowToQuote ⟨1, some "q", none, none, none⟩) rfl

/-- C5: DELETE with a parseable rowid answers 204 with an empty body;
deleting the same rowid again from the resulting table affects zero rows
rather than erroring, leaves the table as it is, and the handler again
answers 204 with an empty body. -/
theorem delete_idempotent_204 (parseQ : String → Option Quote) (db : DB)
    (gen : Int) (s : String) (rid : Int) (b : Option String)
    (hs : parseI64 s = some rid) :
    handler parseQ ⟨Method.DELETE, some s, b⟩ db gen =
      Outcome.ok ⟨204, RespBody.empty⟩ (deleteQuote db rid).1
        [StorageOp.deleteRow rid] ∧
    handler parseQ ⟨Method.DELETE, some s, b⟩ (deleteQuote db rid).1 gen =
      Outcome.ok ⟨204, RespBody.empty⟩ (deleteQuote db rid).1
        [StorageOp.deleteRow rid] ∧
    (deleteQuote (deleteQuote db rid).1 rid).2 = 0 ∧
    (deleteQuote (deleteQuote db rid).1 rid).1 = (deleteQuote db rid).1 := by
  have hfix : (deleteQuote (deleteQuote db rid).1 rid).1 = (deleteQuote db rid).1 := by
    simp [deleteQuote, List.filter_filter, Bool.and_self]
  have hzero : (deleteQuote (deleteQuote db rid).1 rid).2 = 0 := by
    simp only [deleteQuote, List.filter_filter]
    rw [List.length_eq_zero, List.filter_eq_nil_iff]
    intro a _
    simp [bne]
  refine ⟨by simp [handler, hs], ?_, hzero, hfix⟩
  have := hfix
  simp only [handler, hs]
  rw [hfix]

/-- C5 witness: deleting rowid 1 twice from a concrete one-row table. -/
theorem delete_idempotent_204_witness :
    handler (fun _ => none) ⟨Method.DELETE, some "1", none⟩
        [⟨1, some "q", none, none, none⟩] 0 =
      Outcome.ok ⟨204, RespBody.empty⟩
        (deleteQuote [⟨1, some "q", none, none, none⟩] 1).1
        [StorageOp.deleteRow 1] ∧
    (deleteQuote (deleteQuote [⟨1, some "q", none, none, none⟩] 1).1 1).2 = 0 :=
  ⟨(delete_idempotent_204 (fun _ => none) [⟨1, some "q", none, none, none⟩] 0 "1" 1
      none (by decide)).1,
   (delete_idempotent_204 (fun _ => none) [⟨1, some "q", none, none, none⟩] 0 "1" 1
      none (by decide)).2.2.1⟩

/-- C7 witness: a concrete PATCH request. -/
theorem unsupported_method_405_witness :
    handler (fun _ => none) ⟨Method.PATCH, none, none⟩ [] 0 =
      Outcome.ok ⟨405, RespBody.text "Method Not Allowed"⟩ [] [] :=
  unsupported_method_405 (fun _ => none) [] 0 Method.PATCH none none
    (by refine ⟨?_, ?_, ?_, ?_⟩ <;> intro h <;> cases h)

/-- C8 counterexample: a non-numeric rowid does not surface as any
structured response at all.  On GET and on DELETE with rowid `abc`, the
parse error is propagated by `?` and the invocation aborts (fatal, no
response is built), contradicting the claim that non-numeric ids yield a
400-class response. -/
theorem nonnumeric_id_fatal_cex :
    handler (fun _ => none) ⟨Method.GET, some "abc", none⟩ [] 0 =
      Outcome.fatal [] [] ∧
    isResponse (handler (fun _ => none) ⟨Method.GET, some "abc", none⟩ [] 0) = false ∧
    handler (fun _ => none) ⟨Method.DELETE, some "abc", none⟩ [] 0 =
      Outcome.fatal [] [] ∧
    handler (fun _ => none) ⟨Method.POST, none, some "not json"⟩ [] 0 =
      Outcome.fatal [] [] ∧
    isResponse (handler (fun _ => none) ⟨Method.POST, none, some "not json"⟩ [] 0) =
      false :=
  ⟨rfl, rfl, rfl, rfl, rfl⟩

/-- C8 (amended): only the missing-rowid case of PUT and DELETE is a
structured 400 with a plain-text reason; a non-numeric rowid on GET,
PUT or DELETE and a body serde_json rejects on POST or PUT abort the
invocation as fatal errors without a structured response. -/
theorem client_error_handling (parseQ : String → Option Quote) (db : DB)
    (gen : Int) (s b0 : String) (rp b : Option String) (rid : Int) (m : Method) :
    ((m = Method.PUT ∨ m = Method.DELETE) →
        handler parseQ ⟨m, none, b⟩ db gen =
          Outcome.ok ⟨400, RespBody.text "rowid is required"⟩ db []) ∧
    (parseI64 s = none →
        handler parseQ ⟨Method.GET, some s, b⟩ db gen = Outcome.fatal db [] ∧
        handler parseQ ⟨Method.PUT, some s, b⟩ db gen = Outcome.fatal db [] ∧
        handler parseQ ⟨Method.DELETE, some s, b⟩ db gen = Outcome.fatal db []) ∧
    (parseQ b0 = none →
        handler parseQ ⟨Method.POST, rp, some b0⟩ db gen = Outcome.fatal db []) ∧
    (parseI64 s = some rid → parseQ b0 = none →
        handler parseQ ⟨Method.PUT, some s, some b0⟩ db gen =
          Outcome.fatal db []) := by
  refine ⟨?_, ?_, ?_, ?_⟩
  · rintro (h | h) <;> subst h <;> rfl
  · intro hs
    refine ⟨?_, ?_, ?_⟩ <;> simp [handler, hs]
  · intro hb
    simp [handler, hb]
  · intro hs hb
    simp [handler, hs, hb]

/-- C8 witness: the concrete 400 on a PUT with no rowid and the
concrete fatal abort on a GET with rowid abc. -/
theorem client_error_handling_witness :
    handler (fun _ => none) ⟨Method.PUT, none, none⟩ [] 0 =
      Outcome.ok ⟨400, RespBody.text "rowid is required"⟩ [] [] ∧
    handler (fun _ => none) ⟨Method.GET, some "abc", none⟩ [] 0 =
      Outcome.fatal [] [] :=
  ⟨(client_error_handling (fun _ => none) [] 0 "abc" "x" none none 0 Method.PUT).1
      (Or.inl rfl),
   ((client_error_handling (fun _ => none) [] 0 "abc" "x" none none 0
        Method.PUT).2.1 rfl).1⟩

/-- C9 counterexample: the wire object of a concrete Quote has no `id`
member; the primary key sits under the key `rowid` and is encoded as a
JSON string, not as an integer. -/
theorem quote_json_rowid_key_cex :
    Quote.toJson ⟨some 1, none, none, none, some 2⟩ =
      Json.obj [("rowid", Json.str "1"), ("quote", Json.null),
        ("characters", Json.null), ("stardate", Json.null), ("episode", Json.int 2)] ∧
    jsonObjKeys (Quote.toJson ⟨some 1, none, none, none, some 2⟩) =
      ["rowid", "quote", "characters", "stardate", "episode"] ∧
    "id" ∉ jsonObjKeys (Quote.toJson ⟨some 1, none, none, none, some 2⟩) ∧
    objLookup (Quote.toJson ⟨some 1, none, none, none, some 2⟩) "id" = none ∧
    objLookup (Quote.toJson ⟨some 1, none, none, none, some 2⟩) "rowid" =
      some (Json.str "1") ∧
    Json.render (Quote.toJson ⟨some 1, none, none, none, some 2⟩) =
      "\x7b\"rowid\":\"1\",\"quote\":null,\"characters\":null,\"stardate\":null,\"episode\":2\x7d" :=
  ⟨rfl, rfl, by decide, rfl, rfl, rfl⟩

/-- C9 (amended): the wire shape of a Quote is an object with exactly
the members rowid, quote, characters, stardate, episode in that order;
rowid is a string-encoded integer or null, quote and characters are
strings or null, stardate is a decimal rendered into a string or null,
and episode is an integer or null. -/
theorem quote_json_wire_shape (q : Quote) :
    jsonObjKeys (Quote.toJson q) =
      ["rowid", "quote", "characters", "stardate", "episode"] ∧
    (∀ n, q.rowid = some n →
        objLookup (Quote.toJson q) "rowid" = some (Json.str (ToString.toString n))) ∧
    (q.rowid = none → objLookup (Quote.toJson q) "rowid" = some Json.null) ∧
    (∀ v, q.quote = some v →
        objLookup (Quote.toJson q) "quote" = some (Json.str v)) ∧
    (q.quote = none → objLookup (Quote.toJson q) "quote" = some Json.null) ∧
    (∀ v, q.characters = some v →
        objLookup (Quote.toJson q) "characters" = some (Json.str v)) ∧
    (q.characters = none → objLookup (Quote.toJson q) "characters" = some Json.null) ∧
    (∀ d, q.stardate = some d →
        objLookup (Quote.toJson q) "stardate" = some (Json.str d.toString)) ∧
    (q.stardate = none → objLookup (Quote.toJson q) "stardate" = some Json.null) ∧
    (∀ n, q.episode = some n →
        objLookup (Quote.toJson q) "episode" = some (Json.int n)) ∧
    (q.episode = none → objLookup (Quote.toJson q) "episode" = some Json.null) := by
  obtain ⟨ro, qq, ch, sd, ep⟩ := q
  refine ⟨rfl, ?_, ?_, ?_, ?_, ?_, ?_, ?_, ?_, ?_, ?_⟩ <;>
    first
      | (intro v h; subst h; rfl)
      | (intro h; subst h; rfl)

/-- C9 witness: the shape facts evaluated at a concrete Quote. -/
theorem quote_json_wire_shape_witness :
    objLookup (Quote.toJson ⟨some 3, none, none, none, none⟩) "rowid" =
      some (Json.str "3") ∧
    objLookup (Quote.toJson ⟨some 3, none, none, none, none⟩) "quote" =
      some Json.null :=
  ⟨(quote_json_wire_shape ⟨some 3, none, none, none, none⟩).2.1 3 rfl,
   (quote_json_wire_shape ⟨some 3, none, none, none, none⟩).2.2.2.2.1 rfl⟩

/-- C10 counterexample: a PUT whose rowid parameter is present but not
numeric and whose body is absent does not panic; the rowid parse runs
first and its Err is propagated, so the invocation ends fatal, not in
the body unwrap. -/
theorem put_unparseable_rowid_no_panic_cex :
    handler (fun _ => none) ⟨Method.PUT, some "abc", none⟩ [] 0 =
      Outcome.fatal [] [] ∧
    Outcome.fatal ([] : DB) [] ≠ Outcome.panic [] [] :=
  ⟨rfl, by decide⟩

/-- C10 (amended): a POST with an absent body always panics in
body.unwrap(); a PUT with a parseable rowid and an absent body panics
likewise (with an unparseable rowid the parse error propagates as an
Err before the body is touched). -/
theorem absent_body_panics (parseQ : String → Option Quote) (db : DB) (gen : Int)
    (rp : Option String) (s : String) (rid : Int) :
    handler parseQ ⟨Method.POST, rp, none⟩ db gen = Outcome.panic db [] ∧
    (parseI64 s = some rid →
        handler parseQ ⟨Method.PUT, some s, none⟩ db gen = Outcome.panic db []) := by
  refine ⟨rfl, ?_⟩
  intro hs
  simp [handler, hs]

/-- C10 witness: the concrete panics on POST and PUT without a body. -/
theorem absent_body_panics_witness :
    handler (fun _ => none) ⟨Method.POST, none, none⟩ [] 0 = Outcome.panic [] [] ∧
    handler (fun _ => none) ⟨Method.PUT, some "1", none⟩ [] 0 = Outcome.panic [] [] :=
  ⟨(absent_body_panics (fun _ => none) [] 0 none "1" 1).1,
   (absent_body_panics (fun _ => none) [] 0 none "1" 1).2 (by decide)⟩
